import Mathlib

/-!
Shallow embedding of the MathSnap Solver pipeline orchestration layer:
the status-marker taxonomy, the extraction / correction / solve stages,
and the pipeline controller.  Each stage's external model service is an
explicit function parameter, and stage results carry a count of service
invocations so that bypass ("zero service calls") properties are
observable.  The definitions are translated from the TypeScript sources
(`solve-math-expression.ts`, `fix-ocr-errors.ts`, the full-text revision
of `extract-math-text`, and the `MathSolver` controller component).
-/

/-! ## String primitives

Models of the JavaScript string operations used by the code:
`trim`, `includes`, `startsWith`, all computed over the character list. -/

def isWS (c : Char) : Bool := c.isWhitespace

def trimChars (l : List Char) : List Char :=
  ((l.dropWhile isWS).reverse.dropWhile isWS).reverse

/-- Model of JavaScript `String.prototype.trim`. -/
def jsTrim (s : String) : String := String.mk (trimChars s.data)

/-- Model of JavaScript `String.prototype.startsWith`. -/
def startsWithStr (s p : String) : Bool := p.data.isPrefixOf s.data

/-- Model of JavaScript `String.prototype.includes`. -/
def hasSub (s p : String) : Bool := s.data.tails.any fun t => p.data.isPrefixOf t

theorem dropWhile_self_dropWhile (p : Char → Bool) (l : List Char) :
    (l.dropWhile p).dropWhile p = l.dropWhile p := by
  induction l with
  | nil => rfl
  | cons c l ih =>
    cases hc : p c
    · simp [List.dropWhile_cons, hc]
    · simpa [List.dropWhile_cons, hc] using ih

theorem head_dropWhile_false (p : Char → Bool) (l : List Char) :
    ∀ a t, l.dropWhile p = a :: t → p a = false := by
  induction l with
  | nil => intro a t h; cases h
  | cons c l ih =>
    intro a t h
    cases hc : p c
    · rw [List.dropWhile_cons, hc] at h
      simp at h
      obtain ⟨rfl, rfl⟩ := h
      exact hc
    · rw [List.dropWhile_cons, hc] at h
      simp at h
      exact ih a t h

theorem getLast?_dropWhile (p : Char → Bool) (l : List Char) :
    l.dropWhile p = [] ∨ (l.dropWhile p).getLast? = l.getLast? := by
  induction l with
  | nil => exact Or.inl rfl
  | cons c l ih =>
    cases hc : p c
    · exact Or.inr (by rw [List.dropWhile_cons, hc]; simp)
    · rw [List.dropWhile_cons, hc, if_pos rfl]
      cases l with
      | nil => exact Or.inl rfl
      | cons x xs =>
        rcases ih with h | h
        · exact Or.inl h
        · exact Or.inr (by rw [h, List.getLast?_cons_cons])

theorem trimChars_self (l : List Char) : trimChars (trimChars l) = trimChars l := by
  unfold trimChars
  set u := l.dropWhile isWS with hu
  set v := u.reverse.dropWhile isWS with hv
  have hA : v.reverse.dropWhile isWS = v.reverse := by
    cases hvr : v.reverse with
    | nil => rfl
    | cons a t =>
      have hva : v.getLast? = some a := by
        rw [← List.head?_reverse, hvr]; rfl
      have hne : v ≠ [] := by
        intro h; rw [h] at hvr; cases hvr
      have hgl : (u.reverse.dropWhile isWS).getLast? = u.reverse.getLast? := by
        rcases getLast?_dropWhile isWS u.reverse with h | h
        · rw [← hv] at h; exact absurd h hne
        · exact h
      have hua : u.head? = some a := by
        rw [← List.getLast?_reverse, ← hgl, ← hv, hva]
      obtain ⟨us, hus⟩ : ∃ us, u = a :: us := by
        cases hu2 : u with
        | nil => rw [hu2] at hua; cases hua
        | cons b bs =>
          rw [hu2] at hua
          injection hua with hba
          exact ⟨bs, by rw [hba]⟩
      have ha : isWS a = false := head_dropWhile_false isWS l a us (by rw [← hu]; exact hus)
      rw [List.dropWhile_cons, ha]
      simp
  rw [hA, List.reverse_reverse, hv, dropWhile_self_dropWhile]

theorem jsTrim_jsTrim (s : String) : jsTrim (jsTrim s) = jsTrim s := by
  unfold jsTrim
  rw [show (String.mk (trimChars s.data)).data = trimChars s.data from rfl, trimChars_self]

/-! ## Status taxonomy

The closed set of sentinel strings that can stand in for real content
(constants shared by the flows and the controller component). -/

def NO_TEXT_FOUND : String := "NO_TEXT_FOUND"

def OCR_PROCESSING_ERROR : String := "OCR_PROCESSING_ERROR"

def PREPROCESSING_ERROR : String := "PREPROCESSING_ERROR"

def API_ERROR_INVALID_KEY : String := "API_ERROR_INVALID_KEY"

def API_ERROR_QUOTA : String := "API_ERROR_QUOTA"

def API_GENERAL_ERROR : String := "API_GENERAL_ERROR"

def OCR_BLOCKED_BY_SAFETY : String := "OCR_BLOCKED_BY_SAFETY"

/-- The full StatusMarker set of the specification. -/
def statusMarkers : List String :=
  [NO_TEXT_FOUND, OCR_PROCESSING_ERROR, PREPROCESSING_ERROR, API_ERROR_INVALID_KEY,
   API_ERROR_QUOTA, API_GENERAL_ERROR, OCR_BLOCKED_BY_SAFETY]

/-- Source constant `MATH_AI_ERROR_PREFIX`: the reserved leading substring
marking a user-facing error in a solution string. -/
def MATH_AI_ERROR_TAG : String := "**Error:**"

/-- Canonicalization applied to an optional expression string by the flows
and the controller: `typeof v === 'string' && v.trim() !== '' ? v.trim() : null`
(equivalently `v?.trim() || null`). -/
def trimExprOpt : Option String → Option String
  | some s => if jsTrim s = "" then none else some (jsTrim s)
  | none => none

/-! ## Solve Stage (`solve-math-expression.ts`) -/

structure SolveInput where
  expression : Option String
  fullTextContext : String
deriving DecidableEq

/-- Outcome of one call to the solver model (`prompt(input)` in
`solveMathExpressionFlow`): a thrown transport error, a structurally
invalid response (`!output || output.solution == null`), or a solution
string. -/
inductive SolveServiceOutcome where
  | fail (msg : String)
  | nullOutput
  | ok (solution : String)
deriving DecidableEq

structure SolveResult where
  solution : String
  serviceCalls : Nat
deriving DecidableEq

/-- The two upstream messages checked by `solveMathExpression` itself. -/
def solveBypassList : List String := [NO_TEXT_FOUND, OCR_PROCESSING_ERROR]

/-- `solveMathExpressionFlow`: one service call, converting transport
errors and invalid responses into error-tagged solution strings. -/
def solveMathExpressionFlow (service : SolveInput → SolveServiceOutcome)
    (input : SolveInput) : String :=
  match service input with
  | SolveServiceOutcome.fail msg =>
      MATH_AI_ERROR_TAG ++
        (" An unexpected error occurred while trying to solve the problem: " ++ msg)
  | SolveServiceOutcome.nullOutput =>
      MATH_AI_ERROR_TAG ++ " The AI solver failed to generate a response. Please try again."
  | SolveServiceOutcome.ok s => s

/-- `solveMathExpression`: the exported Solve Stage entry point.  Checks the
text context against the empty string and `[NO_TEXT_FOUND, OCR_PROCESSING_ERROR]`,
nullifies an expression equal to one of those two messages, then runs the flow.
`serviceCalls` counts invocations of the solver model. -/
def solveMathExpression (service : SolveInput → SolveServiceOutcome)
    (input : SolveInput) : SolveResult :=
  if input.fullTextContext = "" ∨ input.fullTextContext ∈ solveBypassList then
    { solution := MATH_AI_ERROR_TAG ++
        (" Cannot solve because the required text context " ++
          (if input.fullTextContext = "" then "is missing" else "indicates an upstream error") ++
          ". Please provide valid text, possibly by correcting the OCR output."),
      serviceCalls := 0 }
  else
    let expr : Option String :=
      match input.expression with
      | some e => if e ∈ solveBypassList then none else some e
      | none => none
    { solution := solveMathExpressionFlow service
        { expression := expr, fullTextContext := input.fullTextContext },
      serviceCalls := 1 }

/-! ## Correction Stage (`fix-ocr-errors.ts`, full-text revision) -/

structure FixInput where
  ocrText : String
  ocrExpression : Option String
deriving DecidableEq

/-- Outcome of one call to the correction model: a thrown transport error,
a wholly missing output object, or an output whose `correctedText` may be
null (`Option`) and whose `correctedExpression` may be null or absent. -/
inductive CorrectionServiceOutcome where
  | fail (msg : String)
  | nullOutput
  | ok (correctedText : Option String) (correctedExpression : Option String)
deriving DecidableEq

structure FixOutput where
  correctedText : String
  correctedExpression : Option String
  serviceCalls : Nat
deriving DecidableEq

/-- Source constant `BYPASS_CORRECTION_MESSAGES`. -/
def BYPASS_CORRECTION_MESSAGES : List String :=
  [NO_TEXT_FOUND, OCR_PROCESSING_ERROR, PREPROCESSING_ERROR, API_ERROR_INVALID_KEY,
   API_ERROR_QUOTA, API_GENERAL_ERROR, OCR_BLOCKED_BY_SAFETY]

/-- `fixOcrErrorsFlow`: one service call; transport errors and responses
with a missing/null `correctedText` fall back to the original inputs;
otherwise the response is trimmed and an empty-after-trim expression is
canonicalized to null. -/
def fixOcrErrorsFlow (service : FixInput → CorrectionServiceOutcome)
    (input : FixInput) : FixOutput :=
  match service input with
  | CorrectionServiceOutcome.fail _ =>
      { correctedText := input.ocrText, correctedExpression := input.ocrExpression,
        serviceCalls := 1 }
  | CorrectionServiceOutcome.nullOutput =>
      { correctedText := input.ocrText, correctedExpression := input.ocrExpression,
        serviceCalls := 1 }
  | CorrectionServiceOutcome.ok none _ =>
      { correctedText := input.ocrText, correctedExpression := input.ocrExpression,
        serviceCalls := 1 }
  | CorrectionServiceOutcome.ok (some t) e =>
      { correctedText := jsTrim t, correctedExpression := trimExprOpt e,
        serviceCalls := 1 }

/-- `fixOcrErrors`: the exported Correction Stage entry point.  An empty or
marker `ocrText` bypasses the service entirely, returning the input text and
a null expression. -/
def fixOcrErrors (service : FixInput → CorrectionServiceOutcome)
    (input : FixInput) : FixOutput :=
  if input.ocrText = "" ∨ input.ocrText ∈ BYPASS_CORRECTION_MESSAGES then
    { correctedText := input.ocrText, correctedExpression := none, serviceCalls := 0 }
  else
    fixOcrErrorsFlow service input

/-! ## Extraction Stage

The full-text revision of `extractMathText` used by the pipeline
controller: its flow returns `{ fullText, extractedExpression }`; the
wrapper validates the data URI, runs image preprocessing fail-fast, and
forwards the (possibly) preprocessed URI to the vision flow. -/

/-- Outcome of one call to the vision model: a thrown transport error, a
missing response/output object, a safety-filter block (`finishReason ==
'SAFETY'`), an output object without a `fullText` key, or an output whose
`fullText` and `extractedExpression` may each be null. -/
inductive VisionServiceOutcome where
  | fail (msg : String)
  | noOutput
  | safetyBlocked
  | malformed
  | ok (fullText : Option String) (extractedExpression : Option String)
deriving DecidableEq

structure ExtractFlowOutput where
  fullText : String
  extractedExpression : Option String
deriving DecidableEq

structure ExtractOutput where
  fullText : String
  extractedExpression : Option String
  preprocessedImageUri : Option String
  visionCalls : Nat
deriving DecidableEq

/-- `extractMathTextFlow`: one vision call; normalizes the response (trim,
empty/`NO_TEXT_FOUND`-case-insensitive to the marker) and classifies
transport errors by message substrings. -/
def extractMathTextFlow (vision : String → VisionServiceOutcome)
    (imageDataUri : String) : ExtractFlowOutput :=
  match vision imageDataUri with
  | VisionServiceOutcome.noOutput =>
      { fullText := OCR_PROCESSING_ERROR, extractedExpression := none }
  | VisionServiceOutcome.safetyBlocked =>
      { fullText := OCR_BLOCKED_BY_SAFETY, extractedExpression := none }
  | VisionServiceOutcome.malformed =>
      { fullText := OCR_PROCESSING_ERROR, extractedExpression := none }
  | VisionServiceOutcome.ok none _ =>
      { fullText := NO_TEXT_FOUND, extractedExpression := none }
  | VisionServiceOutcome.ok (some t) e =>
      if jsTrim t = "" ∨ (jsTrim t).toUpper = NO_TEXT_FOUND then
        { fullText := NO_TEXT_FOUND, extractedExpression := none }
      else
        { fullText := jsTrim t, extractedExpression := trimExprOpt e }
  | VisionServiceOutcome.fail msg =>
      if hasSub msg "API key not valid" ∨ hasSub msg "permission denied" then
        { fullText := API_ERROR_INVALID_KEY, extractedExpression := none }
      else if hasSub msg "quota" ∨ hasSub msg "Quota" then
        { fullText := API_ERROR_QUOTA, extractedExpression := none }
      else
        { fullText := API_GENERAL_ERROR, extractedExpression := none }

/-- `extractMathText`: the exported Extraction Stage entry point.
`preprocess` models `preprocessImageForOcr` (`Except.error` = thrown).
A malformed data URI fails fast with `OCR_PROCESSING_ERROR`; a
preprocessing failure fails fast with `PREPROCESSING_ERROR`; otherwise the
vision flow runs once on the preprocessed (fallback: original) URI. -/
def extractMathText (preprocess : String → Except String String)
    (vision : String → VisionServiceOutcome) (imageDataUri : String) : ExtractOutput :=
  if startsWithStr imageDataUri "data:image/" = false then
    { fullText := OCR_PROCESSING_ERROR, extractedExpression := none,
      preprocessedImageUri := some imageDataUri, visionCalls := 0 }
  else
    match preprocess imageDataUri with
    | Except.error _ =>
        { fullText := PREPROCESSING_ERROR, extractedExpression := none,
          preprocessedImageUri := some imageDataUri, visionCalls := 0 }
    | Except.ok pre =>
        let used := if pre = "" then imageDataUri else pre
        let r := extractMathTextFlow vision used
        { fullText := r.fullText, extractedExpression := r.extractedExpression,
          preprocessedImageUri := some used, visionCalls := 1 }

/-! ## Pipeline Controller (`MathSolver` component, `part_005` revision)

The React state relevant to the pipeline (OCR text/expression, editable
corrected text/expression, solution, error message).  UI-only state
(image previews, loading flags, progress, confidence, toasts) is omitted.
`StepResult.serviceCalls` counts the underlying model-service invocations
performed by a handler. -/

structure ControllerState where
  ocrFullText : String
  ocrExpression : Option String
  correctedFullText : String
  correctedExpression : Option String
  solution : String
  error : Option String
deriving DecidableEq

/-- The result of `extractMathText` as seen by the controller;
`fullText = none` models a response whose `fullText` is not a string. -/
structure OcrResult where
  fullText : Option String
  extractedExpression : Option String
deriving DecidableEq

structure StepResult where
  state : ControllerState
  serviceCalls : Nat
deriving DecidableEq

/-- Source constant `BYPASS_ALL_PROCESSING_MESSAGES` (the six error
markers; `NO_TEXT_FOUND` is handled separately by the controller). -/
def BYPASS_ALL_PROCESSING_MESSAGES : List String :=
  [OCR_PROCESSING_ERROR, PREPROCESSING_ERROR, API_ERROR_INVALID_KEY,
   API_ERROR_QUOTA, API_GENERAL_ERROR, OCR_BLOCKED_BY_SAFETY]

/-- Initial controller state (all fields reset). -/
def initState : ControllerState :=
  { ocrFullText := "", ocrExpression := none, correctedFullText := "",
    correctedExpression := none, solution := "", error := none }

/-- `triggerOcr`: state update applied when the extraction result arrives.
Resets all pipeline fields, stores the raw OCR text/expression, and either
clears the editable text (marker / no text) or seeds it with the raw
output.  The extraction call itself is modelled separately
(`extractMathText`); `triggerOcr` performs no correction or solve call. -/
def triggerOcr (s : ControllerState) (r : OcrResult) : ControllerState :=
  let s0 : ControllerState :=
    { s with ocrFullText := "", ocrExpression := none, correctedFullText := "",
             correctedExpression := none, solution := "", error := none }
  match r.fullText with
  | none =>
      { s0 with ocrFullText := OCR_PROCESSING_ERROR,
                error := some "An unexpected issue occurred during OCR processing (invalid response)." }
  | some fullText =>
      if fullText = NO_TEXT_FOUND then
        { s0 with ocrFullText := fullText,
                  ocrExpression := trimExprOpt r.extractedExpression,
                  correctedFullText := "", correctedExpression := none }
      else if fullText ∈ BYPASS_ALL_PROCESSING_MESSAGES then
        { s0 with ocrFullText := fullText,
                  ocrExpression := trimExprOpt r.extractedExpression,
                  error := some ("OCR failed: " ++
                    (if startsWithStr fullText "API_" then "API Error"
                     else if startsWithStr fullText "PREPROCESSING" then "Preprocessing Error"
                     else if fullText = OCR_BLOCKED_BY_SAFETY then "Blocked by Safety Filters"
                     else "OCR Processing Error") ++
                    (". Details: " ++ fullText ++ ". Check image, setup, or try again.")),
                  correctedFullText := "", correctedExpression := none }
      else
        { s0 with ocrFullText := fullText,
                  ocrExpression := trimExprOpt r.extractedExpression,
                  correctedFullText := fullText,
                  correctedExpression := trimExprOpt r.extractedExpression }

/-- `handleAiCorrection`: the "Correct with AI" button.  Returns with no
service call when the editable text is empty; otherwise clears error and
solution, runs `fixOcrErrors` on the editable text/expression, and stores
the (re-canonicalized) result. -/
def handleAiCorrection (service : FixInput → CorrectionServiceOutcome)
    (s : ControllerState) : StepResult :=
  if s.correctedFullText = "" then { state := s, serviceCalls := 0 }
  else
    let result := fixOcrErrors service
      { ocrText := s.correctedFullText, ocrExpression := s.correctedExpression }
    { state :=
        { s with
          error := none, solution := "",
          correctedFullText := result.correctedText,
          correctedExpression := trimExprOpt result.correctedExpression },
      serviceCalls := result.serviceCalls }

/-- `handleSolve`: the "Solve Problem" button.  Blocks with an error-tagged
solution and no service call when the original OCR status is an error
marker or when the (trimmed) editable text is empty; otherwise runs
`solveMathExpression` on the trimmed text/expression. -/
def handleSolve (service : SolveInput → SolveServiceOutcome)
    (s : ControllerState) : StepResult :=
  if s.ocrFullText ∈ BYPASS_ALL_PROCESSING_MESSAGES then
    { state := { s with solution := MATH_AI_ERROR_TAG ++
        (" Cannot solve because the initial text extraction failed (" ++ s.ocrFullText ++
         "). Please upload a clearer image or correct the text manually.") },
      serviceCalls := 0 }
  else if jsTrim s.correctedFullText = "" then
    { state := { s with solution := MATH_AI_ERROR_TAG ++
        " Cannot solve because the text context is empty. Please upload an image or enter text." },
      serviceCalls := 0 }
  else
    let r := solveMathExpression service
      { expression := trimExprOpt s.correctedExpression,
        fullTextContext := jsTrim s.correctedFullText }
    { state := { s with error := none, solution := r.solution },
      serviceCalls := r.serviceCalls }

/-- The two editable fields of the controller. -/
inductive EditField where
  | fullTextField
  | expressionField
deriving DecidableEq

/-- `handleTextChange`: a user edit of an editable field.  Stores the new
value (an expression cleared to whitespace becomes null), discards any held
solution, and clears solver-related error messages. -/
def handleTextChange (s : ControllerState) (field : EditField) (value : String) :
    ControllerState :=
  let s1 : ControllerState :=
    match field with
    | EditField.fullTextField => { s with correctedFullText := value }
    | EditField.expressionField =>
        { s with correctedExpression := if jsTrim value = "" then none else some value }
  let s2 : ControllerState := if s1.solution = "" then s1 else { s1 with solution := "" }
  match s2.error with
  | some e =>
      if hasSub e.toLower "solver" ∨ hasSub e.toLower "solving" then { s2 with error := none }
      else s2
  | none => s2

/-! ## Claims -/

/-- Claim C1 counterexample: with the text context equal to the StatusMarker
`PREPROCESSING_ERROR`, `solveMathExpression` does not short-circuit — it
makes one solver-service call and returns the service's solution verbatim
(here `"42"`, which does not begin with the reserved error tag). -/
theorem solve_short_circuit_cex :
    PREPROCESSING_ERROR ∈ statusMarkers ∧
    (solveMathExpression (fun _ => SolveServiceOutcome.ok "42")
        { expression := none, fullTextContext := PREPROCESSING_ERROR }).serviceCalls = 1 ∧
    (solveMathExpression (fun _ => SolveServiceOutcome.ok "42")
        { expression := none, fullTextContext := PREPROCESSING_ERROR }).solution = "42" := by
  refine ⟨by decide, by decide, by decide⟩

/-- Claim C1 (amended): `solveMathExpression` short-circuits — returning a
solution beginning with the reserved `"**Error:**"` tag and making zero
solver-service calls — exactly for a text context that is empty or equal to
`NO_TEXT_FOUND` or `OCR_PROCESSING_ERROR`; the other five status markers are
not screened by the Solve Stage itself (the controller's `handleSolve`
blocks them separately via the recorded extraction status). -/
theorem solve_short_circuit (service : SolveInput → SolveServiceOutcome)
    (input : SolveInput)
    (h : input.fullTextContext = "" ∨ input.fullTextContext = NO_TEXT_FOUND ∨
         input.fullTextContext = OCR_PROCESSING_ERROR) :
    (∃ rest, (solveMathExpression service input).solution = MATH_AI_ERROR_TAG ++ rest) ∧
    (solveMathExpression service input).serviceCalls = 0 := by
  have hc : input.fullTextContext = "" ∨ input.fullTextContext ∈ solveBypassList := by
    rcases h with h | h | h
    · exact Or.inl h
    · exact Or.inr (by rw [h]; decide)
    · exact Or.inr (by rw [h]; decide)
  unfold solveMathExpression
  rw [if_pos hc]
  exact ⟨⟨_, rfl⟩, rfl⟩

/-- Claim C1 witness: the short-circuit at the concrete empty context. -/
theorem solve_short_circuit_witness :
    (∃ rest, (solveMathExpression (fun _ => SolveServiceOutcome.ok "unused")
        { expression := none, fullTextContext := "" }).solution = MATH_AI_ERROR_TAG ++ rest) ∧
    (solveMathExpression (fun _ => SolveServiceOutcome.ok "unused")
        { expression := none, fullTextContext := "" }).serviceCalls = 0 :=
  solve_short_circuit _ _ (Or.inl rfl)

/-- Claim C2: for an absent (empty) or marker `ocrText`, `fixOcrErrors`
makes no correction-service call and returns the input text unchanged with
an absent expression. -/
theorem correction_bypass (service : FixInput → CorrectionServiceOutcome)
    (input : FixInput)
    (h : input.ocrText = "" ∨ input.ocrText ∈ statusMarkers) :
    fixOcrErrors service input =
      { correctedText := input.ocrText, correctedExpression := none, serviceCalls := 0 } := by
  have hc : input.ocrText = "" ∨ input.ocrText ∈ BYPASS_CORRECTION_MESSAGES := by
    rcases h with h | h
    · exact Or.inl h
    · exact Or.inr h
  unfold fixOcrErrors
  rw [if_pos hc]

/-- Claim C2 witness: the bypass at the concrete marker `NO_TEXT_FOUND`. -/
theorem correction_bypass_witness :
    fixOcrErrors (fun _ => CorrectionServiceOutcome.ok (some "changed") (some "changed"))
        { ocrText := NO_TEXT_FOUND, ocrExpression := some "2x" } =
      { correctedText := NO_TEXT_FOUND, correctedExpression := none, serviceCalls := 0 } :=
  correction_bypass _ _ (Or.inr (by decide))

/-- Claim C3: for a valid image data URI, a preprocessing failure makes
`extractMathText` return the `PREPROCESSING_ERROR` marker with zero vision
calls, whatever the vision service would have answered. -/
theorem extraction_preprocessing_fail_fast (preprocess : String → Except String String)
    (vision : String → VisionServiceOutcome) (uri : String) (e : String)
    (h1 : startsWithStr uri "data:image/" = true)
    (h2 : preprocess uri = Except.error e) :
    (extractMathText preprocess vision uri).fullText = PREPROCESSING_ERROR ∧
    (extractMathText preprocess vision uri).visionCalls = 0 := by
  unfold extractMathText
  rw [h1]
  simp only [Bool.true_eq_false, if_false]
  rw [h2]
  exact ⟨rfl, rfl⟩

/-- Claim C3 witness: a concrete failing preprocessor next to a vision
service that would have succeeded. -/
theorem extraction_preprocessing_fail_fast_witness :
    (extractMathText (fun _ => Except.error "sharp failed")
        (fun _ => VisionServiceOutcome.ok (some "2 + 2 = 4") none)
        "data:image/png;base64,AAAA").fullText = PREPROCESSING_ERROR ∧
    (extractMathText (fun _ => Except.error "sharp failed")
        (fun _ => VisionServiceOutcome.ok (some "2 + 2 = 4") none)
        "data:image/png;base64,AAAA").visionCalls = 0 :=
  extraction_preprocessing_fail_fast _ _ _ "sharp failed" (by decide) rfl

/-- Claim C4: for a non-empty, non-marker `ocrText`, a correction-service
transport error or a structurally invalid response (missing output, or
missing/null `correctedText`) makes `fixOcrErrors` return the original
text/expression pair unchanged. -/
theorem correction_failure_fallback (service : FixInput → CorrectionServiceOutcome)
    (input : FixInput)
    (h0 : input.ocrText ≠ "") (h1 : input.ocrText ∉ statusMarkers)
    (h2 : (∃ m, service input = CorrectionServiceOutcome.fail m) ∨
          service input = CorrectionServiceOutcome.nullOutput ∨
          (∃ e, service input = CorrectionServiceOutcome.ok none e)) :
    (fixOcrErrors service input).correctedText = input.ocrText ∧
    (fixOcrErrors service input).correctedExpression = input.ocrExpression := by
  unfold fixOcrErrors
  rw [if_neg (by push_neg; exact ⟨h0, h1⟩)]
  unfold fixOcrErrorsFlow
  rcases h2 with ⟨m, hm⟩ | hm | ⟨e, hm⟩
  · rw [hm]; exact ⟨rfl, rfl⟩
  · rw [hm]; exact ⟨rfl, rfl⟩
  · rw [hm]; exact ⟨rfl, rfl⟩

/-- Claim C4 witness: concrete transport failure over valid content. -/
theorem correction_failure_fallback_witness :
    (fixOcrErrors (fun _ => CorrectionServiceOutcome.fail "network down")
        { ocrText := "2x + 3 = 11", ocrExpression := some "2x + 3 = 11" }).correctedText
      = "2x + 3 = 11" ∧
    (fixOcrErrors (fun _ => CorrectionServiceOutcome.fail "network down")
        { ocrText := "2x + 3 = 11", ocrExpression := some "2x + 3 = 11" }).correctedExpression
      = some "2x + 3 = 11" :=
  correction_failure_fallback _ _ (by decide) (by decide) (Or.inl ⟨"network down", rfl⟩)

/-- Claim C5: when the extraction result's `fullText` is `NO_TEXT_FOUND` or
any error StatusMarker, the controller clears the editable corrected text
and expression, records the marker in `ocrFullText` for user-facing
messaging, and neither the correction button nor the solve button can cause
a downstream service call (`handleAiCorrection` is an unchanged-state no-op
and `handleSolve` blocks before calling the solver). -/
theorem controller_marker_no_downstream_calls (s : ControllerState) (r : OcrResult)
    (m : String) (corrService : FixInput → CorrectionServiceOutcome)
    (solveService : SolveInput → SolveServiceOutcome)
    (h1 : r.fullText = some m) (h2 : m ∈ statusMarkers) :
    (triggerOcr s r).correctedFullText = "" ∧
    (triggerOcr s r).correctedExpression = none ∧
    (triggerOcr s r).ocrFullText = m ∧
    handleAiCorrection corrService (triggerOcr s r) =
      { state := triggerOcr s r, serviceCalls := 0 } ∧
    (handleSolve solveService (triggerOcr s r)).serviceCalls = 0 := by
  have h7 : m = NO_TEXT_FOUND ∨ m = OCR_PROCESSING_ERROR ∨ m = PREPROCESSING_ERROR ∨
      m = API_ERROR_INVALID_KEY ∨ m = API_ERROR_QUOTA ∨ m = API_GENERAL_ERROR ∨
      m = OCR_BLOCKED_BY_SAFETY := by
    simpa [statusMarkers] using h2
  unfold triggerOcr handleAiCorrection handleSolve
  rw [h1]
  rcases h7 with rfl | rfl | rfl | rfl | rfl | rfl | rfl <;>
    exact ⟨rfl, rfl, rfl, rfl, rfl⟩

/-- Claim C5 witness: the terminal behaviour at the concrete marker
`PREPROCESSING_ERROR`, with services that would otherwise answer. -/
theorem controller_marker_no_downstream_calls_witness :
    (triggerOcr initState
        { fullText := some PREPROCESSING_ERROR, extractedExpression := none }).correctedFullText = "" ∧
    (triggerOcr initState
        { fullText := some PREPROCESSING_ERROR, extractedExpression := none }).correctedExpression = none ∧
    (triggerOcr initState
        { fullText := some PREPROCESSING_ERROR, extractedExpression := none }).ocrFullText = PREPROCESSING_ERROR ∧
    handleAiCorrection (fun _ => CorrectionServiceOutcome.ok (some "zz") none)
        (triggerOcr initState
          { fullText := some PREPROCESSING_ERROR, extractedExpression := none }) =
      { state := triggerOcr initState
          { fullText := some PREPROCESSING_ERROR, extractedExpression := none },
        serviceCalls := 0 } ∧
    (handleSolve (fun _ => SolveServiceOutcome.ok "zz")
        (triggerOcr initState
          { fullText := some PREPROCESSING_ERROR, extractedExpression := none })).serviceCalls = 0 :=
  controller_marker_no_downstream_calls initState _ PREPROCESSING_ERROR
    (fun _ => CorrectionServiceOutcome.ok (some "zz") none)
    (fun _ => SolveServiceOutcome.ok "zz") rfl (by decide)

/-- Claim C6: the extraction flow trims the vision response's text; if the
trimmed text is empty or equals the no-text marker case-insensitively
(uppercased comparison), the resulting `fullText` is exactly
`NO_TEXT_FOUND`, and otherwise it is the trimmed text. -/
theorem extractMathTextFlow_ok_reduce (vision : String → VisionServiceOutcome)
    (uri t : String) (e : Option String)
    (hv : vision uri = VisionServiceOutcome.ok (some t) e) :
    extractMathTextFlow vision uri =
      (if jsTrim t = "" ∨ (jsTrim t).toUpper = NO_TEXT_FOUND then
        { fullText := NO_TEXT_FOUND, extractedExpression := none }
       else { fullText := jsTrim t, extractedExpression := trimExprOpt e }) := by
  unfold extractMathTextFlow
  rw [hv]

theorem extractMathTextFlow_fail_reduce (vision : String → VisionServiceOutcome)
    (uri msg : String)
    (hv : vision uri = VisionServiceOutcome.fail msg) :
    extractMathTextFlow vision uri =
      (if hasSub msg "API key not valid" ∨ hasSub msg "permission denied" then
        { fullText := API_ERROR_INVALID_KEY, extractedExpression := none }
       else if hasSub msg "quota" ∨ hasSub msg "Quota" then
        { fullText := API_ERROR_QUOTA, extractedExpression := none }
       else { fullText := API_GENERAL_ERROR, extractedExpression := none }) := by
  unfold extractMathTextFlow
  rw [hv]

theorem extraction_normalizes_response (t : String) (e : Option String) (uri : String)
    (vision : String → VisionServiceOutcome)
    (hv : vision uri = VisionServiceOutcome.ok (some t) e) :
    (extractMathTextFlow vision uri).fullText =
      (if jsTrim t = "" ∨ (jsTrim t).toUpper = NO_TEXT_FOUND then NO_TEXT_FOUND
       else jsTrim t) := by
  rw [extractMathTextFlow_ok_reduce vision uri t e hv]
  by_cases h : jsTrim t = "" ∨ (jsTrim t).toUpper = NO_TEXT_FOUND
  · rw [if_pos h, if_pos h]
  · rw [if_neg h, if_neg h]

/-- Claim C6 witness: a padded `"no_text_found"` response (lowercase, with
whitespace) is normalized to the exact `NO_TEXT_FOUND` marker. -/
theorem extraction_normalizes_response_witness :
    (extractMathTextFlow (fun _ => VisionServiceOutcome.ok (some "  no_text_found  ") none)
        "data:image/png;base64,AAAA").fullText =
      (if jsTrim "  no_text_found  " = "" ∨
          (jsTrim "  no_text_found  ").toUpper = NO_TEXT_FOUND then NO_TEXT_FOUND
       else jsTrim "  no_text_found  ") :=
  extraction_normalizes_response "  no_text_found  " none "data:image/png;base64,AAAA" _ rfl

/-- Claim C7: a transport error during the vision call is classified by
substring inspection of its message — `"API key not valid"` or
`"permission denied"` yield `API_ERROR_INVALID_KEY`, otherwise
`"quota"`/`"Quota"` yield `API_ERROR_QUOTA`, and anything unrecognized
collapses to `API_GENERAL_ERROR`. -/
theorem extraction_classifies_errors (msg uri : String)
    (vision : String → VisionServiceOutcome)
    (hv : vision uri = VisionServiceOutcome.fail msg) :
    (extractMathTextFlow vision uri).fullText =
      (if hasSub msg "API key not valid" ∨ hasSub msg "permission denied" then
        API_ERROR_INVALID_KEY
       else if hasSub msg "quota" ∨ hasSub msg "Quota" then API_ERROR_QUOTA
       else API_GENERAL_ERROR) := by
  rw [extractMathTextFlow_fail_reduce vision uri msg hv]
  by_cases h1 : hasSub msg "API key not valid" ∨ hasSub msg "permission denied"
  · rw [if_pos h1, if_pos h1]
  · rw [if_neg h1, if_neg h1]
    by_cases h2 : hasSub msg "quota" ∨ hasSub msg "Quota"
    · rw [if_pos h2, if_pos h2]
    · rw [if_neg h2, if_neg h2]

/-- Claim C7 witness: an unrecognized transport error collapses to the
general marker. -/
theorem extraction_classifies_errors_witness :
    (extractMathTextFlow (fun _ => VisionServiceOutcome.fail "socket hang up")
        "data:image/png;base64,AAAA").fullText =
      (if hasSub "socket hang up" "API key not valid" ∨
          hasSub "socket hang up" "permission denied" then API_ERROR_INVALID_KEY
       else if hasSub "socket hang up" "quota" ∨ hasSub "socket hang up" "Quota" then
        API_ERROR_QUOTA
       else API_GENERAL_ERROR) :=
  extraction_classifies_errors "socket hang up" "data:image/png;base64,AAAA" _ rfl

/-- Claim C8: any user edit of the corrected text or corrected expression
leaves the controller with an empty solution — in particular a held
`SolutionResult` is discarded, so a solution is never displayable alongside
text that no longer matches it. -/
theorem edit_discards_solution (s : ControllerState) (field : EditField) (value : String) :
    (handleTextChange s field value).solution = "" := by
  unfold handleTextChange
  by_cases hsol : s.solution = "" <;>
    cases field <;>
      cases herr : s.error <;>
        simp [hsol, herr] <;>
          (first | rfl | (split <;> rfl))

/-- A correction service that reports no further changes: it returns its
input text and expression unchanged. -/
def identCorrectionService : FixInput → CorrectionServiceOutcome :=
  fun i => CorrectionServiceOutcome.ok (some i.ocrText) i.ocrExpression

/-- Claim C9: for a non-empty, non-marker text, when the correction service
returns its input unchanged, applying `fixOcrErrors` a second time to the
first output yields the same `correctedText` — correction reaches a stable
fixed point under an identity-acting service. -/
theorem correction_fixed_point (service : FixInput → CorrectionServiceOutcome)
    (t : String) (e : Option String)
    (hsvc : ∀ i, service i = CorrectionServiceOutcome.ok (some i.ocrText) i.ocrExpression)
    (ht : t ≠ "") (hm : t ∉ statusMarkers) :
    (fixOcrErrors service
        { ocrText := (fixOcrErrors service { ocrText := t, ocrExpression := e }).correctedText,
          ocrExpression :=
            (fixOcrErrors service { ocrText := t, ocrExpression := e }).correctedExpression
        }).correctedText =
      (fixOcrErrors service { ocrText := t, ocrExpression := e }).correctedText := by
  have h1 : fixOcrErrors service { ocrText := t, ocrExpression := e } =
      { correctedText := jsTrim t, correctedExpression := trimExprOpt e, serviceCalls := 1 } := by
    unfold fixOcrErrors
    rw [if_neg (by push_neg; exact ⟨ht, hm⟩)]
    unfold fixOcrErrorsFlow
    rw [hsvc]
  rw [h1]
  by_cases h2 : jsTrim t = "" ∨ jsTrim t ∈ BYPASS_CORRECTION_MESSAGES
  · unfold fixOcrErrors
    rw [if_pos h2]
  · unfold fixOcrErrors
    rw [if_neg h2]
    unfold fixOcrErrorsFlow
    rw [hsvc]
    exact jsTrim_jsTrim t

/-- Claim C9 witness: the fixed point at a concrete equation. -/
theorem correction_fixed_point_witness :
    (fixOcrErrors identCorrectionService
        { ocrText := (fixOcrErrors identCorrectionService
            { ocrText := "2x + 3 = 11", ocrExpression := some "2x + 3 = 11" }).correctedText,
          ocrExpression := (fixOcrErrors identCorrectionService
            { ocrText := "2x + 3 = 11", ocrExpression := some "2x + 3 = 11" }).correctedExpression
        }).correctedText =
      (fixOcrErrors identCorrectionService
          { ocrText := "2x + 3 = 11", ocrExpression := some "2x + 3 = 11" }).correctedText :=
  correction_fixed_point identCorrectionService "2x + 3 = 11" (some "2x + 3 = 11")
    (fun _ => rfl) (by decide) (by decide)

/-- Claim C10 counterexample: a structurally invalid service response (null
`correctedText`) whose `correctedExpression` field is the empty string
makes `fixOcrErrors` fall back to the caller's expression unchanged — here
the empty string `some ""`, not `none` — so the stage can return an
empty-string expression. -/
theorem correction_empty_expr_cex :
    (fixOcrErrors (fun _ => CorrectionServiceOutcome.ok none (some ""))
        { ocrText := "2x", ocrExpression := some "" }).correctedExpression = some "" := by
  decide

/-- Claim C10 (amended): on the response-processing path — a structurally
valid service response with `correctedText` present, for a non-bypass input
— an empty, whitespace-only, or non-string `correctedExpression` is
canonicalized to `none`, and the returned expression is always either
`none` or a non-empty trimmed string; on fallback paths (transport error or
invalid response) the input expression is instead returned unchanged, so an
empty-string expression can escape only if the caller supplied one. -/
theorem correction_canonicalizes_expression (service : FixInput → CorrectionServiceOutcome)
    (input : FixInput) (t : String) (e : Option String)
    (hok : service input = CorrectionServiceOutcome.ok (some t) e)
    (hb : ¬(input.ocrText = "" ∨ input.ocrText ∈ BYPASS_CORRECTION_MESSAGES)) :
    ((e = none ∨ ∃ w, e = some w ∧ jsTrim w = "") →
        (fixOcrErrors service input).correctedExpression = none) ∧
    (∀ x, (fixOcrErrors service input).correctedExpression = some x →
        x ≠ "" ∧ jsTrim x = x) := by
  have hfix : fixOcrErrors service input =
      { correctedText := jsTrim t, correctedExpression := trimExprOpt e, serviceCalls := 1 } := by
    unfold fixOcrErrors
    rw [if_neg hb]
    unfold fixOcrErrorsFlow
    rw [hok]
  rw [hfix]
  constructor
  · rintro (rfl | ⟨w, rfl, hw⟩)
    · rfl
    · simp [trimExprOpt, hw]
  · intro x hx
    rcases e with _ | w
    · cases hx
    · by_cases hw : jsTrim w = ""
      · simp [trimExprOpt, hw] at hx
      · simp [trimExprOpt, hw] at hx
        rw [← hx]
        exact ⟨hw, jsTrim_jsTrim w⟩

/-- Claim C10 witness: a whitespace-only expression in a valid response is
canonicalized to an absent expression. -/
theorem correction_canonicalizes_expression_witness :
    (fixOcrErrors (fun _ => CorrectionServiceOutcome.ok (some "y = 2x") (some "   "))
        { ocrText := "y = 2x", ocrExpression := some "   " }).correctedExpression = none :=
  (correction_canonicalizes_expression
      (fun _ => CorrectionServiceOutcome.ok (some "y = 2x") (some "   "))
      { ocrText := "y = 2x", ocrExpression := some "   " } "y = 2x" (some "   ")
      rfl (by decide)).1 (Or.inr ⟨"   ", rfl, by decide⟩)
